import Mathlib

/-!
# FinBot — verification of the finance-tracker core

Shallow embedding of the FinBot repository (`finance_bot.py`, `main.py`):
the SQLite-backed ledger store, the schema-migration manager, the
recurring-transaction materializer, and the aiogram conversation state
machine, together with theorems settling the specification claims.

Modelling conventions:
* SQLite `REAL` amounts are modelled as `Rat`.
* `TEXT` dates in `YYYY-MM-DD` form are modelled as a `Date` structure;
  SQL string comparison of such dates agrees with comparison of the
  serial day number `Date.toDays`.
* Each table is a list of rows, in insertion (= rowid) order.
* `async`/`await` sequencing is direct state passing; every operation of
  the program commits before the next starts, so a database value is
  threaded through the handlers.
-/

set_option maxRecDepth 4000

namespace FinBot

/-- Calendar date (`datetime.date` / a `'YYYY-MM-DD'` TEXT column). -/
structure Date where
  year : Int
  month : Nat
  day : Nat
deriving DecidableEq, Repr

/-- Serial day number of a civil date (days since 1970-01-01, Howard
Hinnant's `days_from_civil`); models `datetime.date` subtraction and
ordering, and the ordering of `'YYYY-MM-DD'` strings. -/
def Date.toDays (dt : Date) : Int :=
  let y : Int := dt.year - (if dt.month ≤ 2 then 1 else 0)
  let m : Int := dt.month
  let d : Int := dt.day
  let era : Int := (if 0 ≤ y then y else y - 399) / 400
  let yoe : Int := y - era * 400
  let mp : Int := (m + 9) % 12
  let doy : Int := (153 * mp + 2) / 5 + d - 1
  let doe : Int := yoe * 365 + yoe / 4 - yoe / 100 + doy
  era * 146097 + doe - 719468

/-- Transaction kind: the `type` column, `CHECK(type IN ('income','expense'))`. -/
inductive TransType where
  | income
  | expense
deriving DecidableEq, Repr

/-- A row of the `transactions` table of `finance_bot.py`
(after `_migration_add_description_column`). -/
structure Txn where
  user_id : Nat
  ttype : TransType
  amount : Rat
  category : String
  date : Date
  description : Option String
deriving DecidableEq, Repr

/-- A row of the `user_categories` table. -/
structure UserCategory where
  user_id : Nat
  category_name : String
  transaction_type : TransType
deriving DecidableEq, Repr

/-- A row of the `budget_limits` table (after `_migration_fix_budget_limits`,
which added the `period` column and the
`UNIQUE(user_id, category, transaction_type, period)` constraint). -/
structure BudgetLimit where
  user_id : Nat
  category : String
  limit_amount : Rat
  transaction_type : TransType
  period : String
deriving DecidableEq, Repr

/-- A row of the `recurring_transactions` table. `frequency` is kept as a
string exactly as in the schema (`CHECK(frequency IN ('daily','weekly','monthly'))`). -/
structure RecurringTxn where
  id : Nat
  user_id : Nat
  ttype : TransType
  amount : Rat
  category : String
  description : Option String
  frequency : String
  start_date : Date
  last_processed : Option Date
  is_active : Bool
deriving DecidableEq, Repr

/-- The whole SQLite store of `finance_bot.py`; each table is a list of
rows in rowid order. -/
structure Db where
  transactions : List Txn
  user_categories : List UserCategory
  budget_limits : List BudgetLimit
  recurring : List RecurringTxn
deriving DecidableEq, Repr

/-- A freshly migrated, empty store. -/
def emptyDb : Db := ⟨[], [], [], []⟩

/-- `Database.add_transaction` (finance_bot.py:202-217): one `INSERT` into
`transactions` with `date = datetime.now().strftime('%Y-%m-%d')` (the
parameter `now`), then commit; returns `True` on success.  The `except`
branch only fires on storage I/O errors, which the pure model has none of. -/
def Db.add_transaction (db : Db) (now : Date) (user_id : Nat) (transaction_type : TransType)
    (amount : Rat) (category : String) (description : Option String) : Db × Bool :=
  ({ db with transactions :=
      db.transactions ++ [⟨user_id, transaction_type, amount, category, now, description⟩] },
   true)

/-- The `WHERE` date filter of `Database.get_transactions`
(finance_bot.py:227-235): `BETWEEN` when both bounds are given, a
one-sided comparison when only one is. -/
def inDateRange (start_date end_date : Option Date) (d : Date) : Bool :=
  match start_date, end_date with
  | some s, some e => s.toDays ≤ d.toDays ∧ d.toDays ≤ e.toDays
  | some s, none => s.toDays ≤ d.toDays
  | none, some e => d.toDays ≤ e.toDays
  | none, none => true

/-- `ORDER BY date DESC` as a relation on rows. -/
def dateDesc (a b : Txn) : Prop := b.date.toDays ≤ a.date.toDays

instance : DecidableRel dateDesc := fun a b => by
  unfold dateDesc; infer_instance

/-- `Database.get_transactions` (finance_bot.py:219-244):
`SELECT type, amount, category, date, description FROM transactions
WHERE user_id = ? [AND date-filter] ORDER BY date DESC LIMIT ?`. -/
def Db.get_transactions (db : Db) (user_id : Nat) (start_date end_date : Option Date)
    (limit : Nat) : List (TransType × Rat × String × Date × Option String) :=
  let rows := db.transactions.filter
    (fun t => t.user_id = user_id ∧ inDateRange start_date end_date t.date)
  ((rows.insertionSort dateDesc).map
    (fun t => (t.ttype, t.amount, t.category, t.date, t.description))).take limit

/-- The `UNIQUE(user_id, category_name, transaction_type)` key of
`user_categories` matching a given row. -/
def ucKeyMatch (user_id : Nat) (category_name : String) (transaction_type : TransType)
    (c : UserCategory) : Bool :=
  c.user_id = user_id ∧ c.category_name = category_name ∧
    c.transaction_type = transaction_type

/-- `Database.add_user_category` (finance_bot.py:286-300): a plain `INSERT`;
when a row with the same `UNIQUE(user_id, category_name, transaction_type)`
key exists the insert raises an integrity error, which the `except` turns
into `False` with the store unchanged. -/
def Db.add_user_category (db : Db) (user_id : Nat) (category_name : String)
    (transaction_type : TransType) : Db × Bool :=
  if db.user_categories.any (ucKeyMatch user_id category_name transaction_type) then
    (db, false)
  else
    ({ db with user_categories :=
        db.user_categories ++ [⟨user_id, category_name, transaction_type⟩] }, true)

/-- `Database.get_user_categories` (finance_bot.py:272-284):
`SELECT category_name FROM user_categories WHERE user_id = ? AND transaction_type = ?`. -/
def Db.get_user_categories (db : Db) (user_id : Nat) (transaction_type : TransType) :
    List String :=
  (db.user_categories.filter
    (fun c => c.user_id = user_id ∧ c.transaction_type = transaction_type)).map
    (·.category_name)

/-- `Database.delete_user_category` (finance_bot.py:302-315): `DELETE` of the
key's rows; reports whether any row was removed (`cursor.rowcount > 0`). -/
def Db.delete_user_category (db : Db) (user_id : Nat) (category_name : String)
    (transaction_type : TransType) : Db × Bool :=
  ({ db with user_categories :=
      (db.user_categories.filter
        (fun c => !(ucKeyMatch user_id category_name transaction_type c))) },
   db.user_categories.any (ucKeyMatch user_id category_name transaction_type))

/-- The `UNIQUE(user_id, category, transaction_type, period)` key of
`budget_limits` (present after `_migration_fix_budget_limits`). -/
def blKeyMatch (user_id : Nat) (category : String) (transaction_type : TransType)
    (period : String) (b : BudgetLimit) : Bool :=
  b.user_id = user_id ∧ b.category = category ∧
    b.transaction_type = transaction_type ∧ b.period = period

/-- `Database.add_budget_limit` (finance_bot.py:318-332): `INSERT OR REPLACE`
into `budget_limits`; under the unique key this deletes any conflicting row
and inserts the new one, then returns `True`. -/
def Db.add_budget_limit (db : Db) (user_id : Nat) (category : String) (limit_amount : Rat)
    (transaction_type : TransType) (period : String) : Db × Bool :=
  ({ db with budget_limits :=
      (db.budget_limits.filter
        (fun b => !(blKeyMatch user_id category transaction_type period b))) ++
      [⟨user_id, category, limit_amount, transaction_type, period⟩] },
   true)

/-- `Date.toDays ⟨year,1,1⟩`, used for `strftime`'s day-of-year. -/
def Date.dayOfYear0 (d : Date) : Int :=
  d.toDays - Date.toDays ⟨d.year, 1, 1⟩

/-- Weekday with Monday = 0 (1970-01-01 was a Thursday, index 3). -/
def Date.wdayMon (d : Date) : Int := (d.toDays + 3) % 7

/-- `strftime('%W')`: week of the year, Monday as first day, the days
before the first Monday being week 0. -/
def Date.weekW (d : Date) : Int := (d.dayOfYear0 + 7 - d.wdayMon) / 7

/-- The date condition of `Database.get_category_spending`
(finance_bot.py:350-354): a dictionary lookup on `period` whose default is
the always-true condition `"1=1"`.  `'%Y-%W'` / `'%Y-%m'` string equality
is equality of the (year, week) / (year, month) pairs. -/
def spendingDateCond (now : Date) (period : String) (d : Date) : Bool :=
  if period = "day" then d = now
  else if period = "week" then d.year = now.year ∧ d.weekW = now.weekW
  else if period = "month" then d.year = now.year ∧ d.month = now.month
  else true

/-- `Database.get_category_spending` (finance_bot.py:347-367):
`SELECT COALESCE(SUM(amount), 0) FROM transactions WHERE user_id = ? AND
category = ? AND type = ? AND <date_condition>`; `COALESCE` turns the `NULL`
sum of an empty selection into 0. -/
def Db.get_category_spending (db : Db) (now : Date) (user_id : Nat) (category : String)
    (transaction_type : TransType) (period : String) : Rat :=
  ((db.transactions.filter
    (fun t => t.user_id = user_id ∧ t.category = category ∧
      t.ttype = transaction_type ∧ spendingDateCond now period t.date)).map (·.amount)).sum

/-- Sample store for the C10 witness: one expense of 500 in "Еда" dated
2024-01-05, read back on 2024-03-10. -/
def c10Db : Db := ⟨[⟨1, .expense, 500, "Еда", ⟨2024, 1, 5⟩, none⟩], [], [], []⟩

/-! ### Schema migrations (`Database._run_migrations` and bodies) -/

/-- Schema-level state of the store: which tables and columns the
migration bodies have created or restructured so far. -/
structure Schema where
  has_transactions : Bool
  has_description_column : Bool
  has_user_categories : Bool
  has_budget_limits : Bool
  budget_limits_has_period : Bool
  has_recurring : Bool
  has_transactions_index : Bool
deriving DecidableEq, Repr

/-- A store with no tables yet (fresh database file). -/
def emptySchema : Schema := ⟨false, false, false, false, false, false, false⟩

/-- `Database._migration_initial_schema` (finance_bot.py:106-160): four
`CREATE TABLE IF NOT EXISTS` statements and one `CREATE INDEX IF NOT
EXISTS`; creating an existing table is a no-op, so this body never fails
and never reshapes a table that already exists (a pre-existing
`transactions` keeps or lacks its `description` column, a pre-existing
`budget_limits` keeps or lacks its `period` column). -/
def migration_initial_schema (s : Schema) : Except String Schema :=
  .ok { s with
    has_transactions := true
    has_description_column := s.has_transactions && s.has_description_column
    has_user_categories := true
    has_budget_limits := true
    budget_limits_has_period := s.has_budget_limits && s.budget_limits_has_period
    has_recurring := true
    has_transactions_index := true }

/-- `Database._migration_add_description_column` (finance_bot.py:162-167):
`ALTER TABLE transactions ADD COLUMN description TEXT`; raises when the
table is missing or the column already exists. -/
def migration_add_description_column (s : Schema) : Except String Schema :=
  if !s.has_transactions then .error "no such table: transactions"
  else if s.has_description_column then .error "duplicate column name: description"
  else .ok { s with has_description_column := true }

/-- `Database._migration_fix_budget_limits` (finance_bot.py:169-195):
rebuilds `budget_limits` with the `period` column and the unique key by a
create-new / copy / drop / rename sequence; the copy and the drop raise
when `budget_limits` is missing. -/
def migration_fix_budget_limits (s : Schema) : Except String Schema :=
  if !s.has_budget_limits then .error "no such table: budget_limits"
  else .ok { s with budget_limits_has_period := true }

/-- The `_migrations` bookkeeping (`applied`, read by
`_is_migration_applied` and written by `_mark_migration_applied`) together
with the schema and a ghost log of every migration body actually executed,
in execution order. -/
structure MigState where
  schema : Schema
  applied : List String
  log : List String
deriving DecidableEq, Repr

/-- The declared migration list of `Database._run_migrations`
(finance_bot.py:64-68), in order, each under its `__name__`. -/
def migrations : List (String × (Schema → Except String Schema)) :=
  [("_migration_initial_schema", migration_initial_schema),
   ("_migration_add_description_column", migration_add_description_column),
   ("_migration_fix_budget_limits", migration_fix_budget_limits)]

/-- The declared migration names, in order. -/
def migrationNames : List String := migrations.map (·.1)

/-- One iteration of the migration loop (finance_bot.py:70-77):
`_is_migration_applied` looks the name up in `_migrations`; only when it is
absent does the body run (recorded in `log`), and `_mark_migration_applied`
inserts the name only after the body completed without raising.  A raising
body aborts `connect` before any marking. -/
def runOneMigration (s : MigState) (m : String × (Schema → Except String Schema)) :
    Except String MigState :=
  if m.1 ∈ s.applied then .ok s
  else
    match m.2 s.schema with
    | .error e => .error e
    | .ok sch => .ok ⟨sch, s.applied ++ [m.1], s.log ++ [m.1]⟩

/-- `Database._run_migrations` (finance_bot.py:60-77): the loop over the
declared migrations (`_create_migrations_table` is the existence of the
`applied` table itself, a `CREATE TABLE IF NOT EXISTS`). -/
def run_migrations (s : MigState) : Except String MigState :=
  migrations.foldlM runOneMigration s

/-- A fresh database file before `connect`: no tables, no recorded
migrations, nothing executed. -/
def initialMigState : MigState := ⟨emptySchema, [], []⟩

/-- The store state `connect` reaches on a fresh database file. -/
def migratedState : MigState :=
  ⟨⟨true, true, true, true, true, true, true⟩,
   ["_migration_initial_schema", "_migration_add_description_column",
    "_migration_fix_budget_limits"],
   ["_migration_initial_schema", "_migration_add_description_column",
    "_migration_fix_budget_limits"]⟩

/-! ### Recurring-transaction materializer (`process_recurring_transactions`) -/

/-- The cadence test of one loop body (finance_bot.py:590-599): `process`
starts `False` and is set per frequency; `None` counts as due immediately,
daily compares calendar days, weekly counts elapsed days, monthly compares
the month and year fields.  An unknown frequency leaves `process = False`. -/
def cadenceDue (frequency : String) (last_processed : Option Date) (now : Date) : Bool :=
  if frequency = "daily" then
    match last_processed with
    | none => true
    | some d => d.toDays < now.toDays
  else if frequency = "weekly" then
    match last_processed with
    | none => true
    | some d => 7 ≤ now.toDays - d.toDays
  else if frequency = "monthly" then
    match last_processed with
    | none => true
    | some d => d.month < now.month ∨ d.year < now.year
  else false

/-- `Database.get_recurring_transactions()` with no user id
(finance_bot.py:399-404): every active template, across all users. -/
def Db.get_recurring_all (db : Db) : List RecurringTxn :=
  db.recurring.filter (·.is_active)

/-- `Database.update_recurring_transaction(trans_id, last_processed=...)`
(finance_bot.py:410-424) as the materializer invokes it:
`UPDATE recurring_transactions SET last_processed = ? WHERE id = ?`. -/
def Db.update_recurring_last_processed (db : Db) (trans_id : Nat) (d : Date) : Db :=
  { db with recurring :=
      (db.recurring.map
        (fun r => if r.id = trans_id then { r with last_processed := some d } else r)) }

/-- The transaction one cycle inserts for a due template: the template's
kind, amount, category and description, dated with the cycle's day. -/
def templateTxn (t : RecurringTxn) (now : Date) : Txn :=
  ⟨t.user_id, t.ttype, t.amount, t.category, now, t.description⟩

/-- One cycle of `process_recurring_transactions` (finance_bot.py:580-607):
fetch the active templates once, then for each due one insert its
transaction (`db.add_transaction`, dated today) and set its
`last_processed` to today.  The surrounding `while True` / `sleep` and the
error backoff are scheduling, outside the state model. -/
def processRecurringCycle (db : Db) (now : Date) : Db :=
  db.get_recurring_all.foldl
    (fun acc t =>
      if cadenceDue t.frequency t.last_processed now then
        ((acc.add_transaction now t.user_id t.ttype t.amount
            t.category t.description).1).update_recurring_last_processed t.id now
      else acc)
    db

/-- C4 witness data: an active daily rent template of user 2, never
processed. -/
def c4T : RecurringTxn :=
  ⟨1, 2, .expense, 50, "Жилье", some "аренда", "daily", ⟨2024, 1, 1⟩, none, true⟩

/-- C4 witness store: only the daily template. -/
def c4Db : Db := ⟨[], [], [], [c4T]⟩

/-- C5 witness data: an active monthly salary template of user 3, last
processed on 2024-04-30. -/
def c5T : RecurringTxn :=
  ⟨4, 3, .income, 1000, "Зарплата", none, "monthly", ⟨2024, 1, 1⟩, some ⟨2024, 4, 30⟩, true⟩

/-- C5 witness store: only the monthly template. -/
def c5Db : Db := ⟨[], [], [], [c5T]⟩

/-- `Database.add_recurring_transaction` (finance_bot.py:370-386): `INSERT`
with `start_date` = today, `last_processed` NULL and `is_active` defaulted
to 1; the id is the next autoincrement value. -/
def Db.add_recurring_transaction (db : Db) (now : Date) (user_id : Nat)
    (transaction_type : TransType) (amount : Rat) (category : String)
    (frequency : String) (description : Option String) : Db × Bool :=
  ({ db with recurring :=
      (db.recurring ++
        [⟨(db.recurring.map (·.id)).foldl max 0 + 1, user_id, transaction_type, amount,
          category, description, frequency, now, none, true⟩]) },
   true)

/-! ### Conversation state machine (aiogram dispatcher + `Form` states) -/

/-- The value domain of Python `float()`: finite values (abstracted to
`Rat`, see the header), the signed infinities and `nan`. -/
inductive PyNum where
  | finite (q : Rat)
  | inf (neg : Bool)
  | nan
deriving DecidableEq, Repr

/-- Python's `amount <= 0` on a parsed float: `nan` compares `False` to
everything, `-inf` is below zero, `inf` is not. -/
def PyNum.leZero : PyNum → Bool
  | .finite q => q ≤ 0
  | .inf neg => neg
  | .nan => false

/-- The FSM states of `Form` (finance_bot.py:429-457), plus `idle` for the
cleared state (`state = None`). -/
inductive FormState where
  | idle
  | transaction_type
  | transaction_amount
  | transaction_category
  | transaction_description
  | category_type
  | category_name
  | delete_category
  | limit_category_type
  | limit_category
  | limit_amount
  | limit_period
  | recurring_type
  | recurring_amount
  | recurring_category
  | recurring_description
  | recurring_frequency
  | export_start_date
  | export_end_date
  | export_format
deriving DecidableEq, Repr

/-- The per-user FSM data dictionary: every key any handler ever stores
with `state.update_data`, each `none` while absent.  `update_data` merges
(other keys survive); `state.clear()` resets every key. -/
structure Draft where
  transaction_type : Option TransType := none
  transaction_amount : Option PyNum := none
  transaction_category : Option String := none
  category_type : Option TransType := none
  limit_category_type : Option TransType := none
  limit_category : Option String := none
  limit_period : Option String := none
  recurring_type : Option TransType := none
  recurring_amount : Option PyNum := none
  recurring_category : Option String := none
  recurring_description : Option (Option String) := none
  export_start_date : Option Date := none
  export_end_date : Option Date := none
deriving DecidableEq, Repr

/-- One user's conversation: current FSM state plus the data dictionary. -/
structure Session where
  st : FormState
  draft : Draft
deriving DecidableEq, Repr

/-- The state after `state.clear()` (also the initial state). -/
def idleSession : Session := ⟨.idle, {}⟩

/-- finance_bot.py:40. -/
def DEFAULT_INCOME_CATEGORIES : List String :=
  ["Зарплата", "Подарок", "Инвестиции", "Фриланс"]

/-- finance_bot.py:41. -/
def DEFAULT_EXPENSE_CATEGORIES : List String :=
  ["Еда", "Транспорт", "Жилье", "Развлечения", "Здоровье"]

/-- The code points Python's `str.isspace` treats as whitespace (used by
`str.strip`, `str.split` and the stripping step of `float()`). -/
def pyIsSpace (c : Char) : Bool :=
  c.toNat ∈ [9, 10, 11, 12, 13, 28, 29, 30, 31, 32, 133, 160, 5760,
    8192, 8193, 8194, 8195, 8196, 8197, 8198, 8199, 8200, 8201, 8202,
    8232, 8233, 8239, 8287, 12288]

/-- Strip leading and trailing whitespace from a character list. -/
def stripEnds (cs : List Char) : List Char :=
  ((cs.dropWhile pyIsSpace).reverse.dropWhile pyIsSpace).reverse

/-- First code point of every block of ten Unicode `Nd` decimal digits
(each block runs 0–9); CPython transliterates any of them to ASCII before
`float()`/`int()`/`strptime` parse. -/
def ndZeros : List Nat :=
  [48, 1632, 1776, 1984, 2406, 2534, 2662, 2790, 2918, 3046, 3174, 3302,
   3430, 3558, 3664, 3792, 3872, 4160, 4240, 6112, 6160, 6470, 6608, 6784,
   6800, 6992, 7088, 7232, 7248, 42528, 43216, 43264, 43472, 43504, 43600,
   44016, 65296, 66720, 68912, 69734, 69872, 69942, 70096, 70384, 70736,
   70864, 71248, 71360, 71472, 71904, 72016, 72784, 73040, 73120, 92768,
   92864, 93008, 120782, 120792, 120802, 120812, 120822, 123200, 123632,
   125264, 130032]

/-- The decimal value of a Unicode digit, `none` for a non-digit. -/
def pyDigitVal (c : Char) : Option Nat :=
  (ndZeros.find? (fun z => z ≤ c.toNat ∧ c.toNat ≤ z + 9)).map (fun z => c.toNat - z)

/-- Is the character a Unicode decimal digit? -/
def isPyDigit (c : Char) : Bool := (pyDigitVal c).isSome

/-- Decimal value of a list of digit values. -/
def digitsToVal (ds : List Nat) : Nat :=
  ds.foldl (fun a d => a * 10 + d) 0

/-- Python `str.strip()`. -/
def pyStrip (s : String) : String := ⟨stripEnds s.toList⟩

/-- `text.replace(',', '.')`: a single-character pattern, so a character
map. -/
def replaceCommaDot (s : String) : String :=
  ⟨s.toList.map (fun c => if c = ',' then '.' else c)⟩

/-- Longest prefix of digits and underscores, and the remainder. -/
def groupRun (cs : List Char) : List Char × List Char :=
  (cs.takeWhile (fun c => isPyDigit c ∨ c = '_'),
   cs.dropWhile (fun c => isPyDigit c ∨ c = '_'))

/-- A digit group with PEP-515 underscores: nonempty, every underscore
strictly between digits; yields the digit values. -/
def validGroup (g : List Char) : Option (List Nat) :=
  if g.isEmpty then none
  else if g.head? = some '_' ∨ g.getLast? = some '_' then none
  else if (g.zip g.tail).any (fun p => p.1 = '_' ∧ p.2 = '_') then none
  else some (g.filterMap pyDigitVal)

/-- The optional exponent tail of a float literal: empty, or `e`/`E`, an
optional sign and a digit group ending the string. -/
def parseExpPart (cs : List Char) : Option Int :=
  match cs with
  | [] => some 0
  | c :: rest =>
    if c = 'e' ∨ c = 'E' then
      let signed : Bool × List Char :=
        match rest with
        | '-' :: r => (true, r)
        | '+' :: r => (false, r)
        | r => (false, r)
      match groupRun signed.2 with
      | (g, []) =>
        (validGroup g).map
          (fun ds => if signed.1 then -(digitsToVal ds : Int) else (digitsToVal ds : Int))
      | _ => none
    else none

/-- Magnitudes at or above `hugeNum` round to infinity in an IEEE double
(the midpoint above the largest finite double; the tie goes to even,
i.e. to infinity). -/
def hugeNum : Nat := 2 ^ 1024 - 2 ^ 970

/-- Positive magnitudes at or below `1 / tinyScale` round to +0.0 in an
IEEE double (half the least subnormal; the tie goes to even, i.e. to
zero). -/
def tinyScale : Nat := 2 ^ 1075

/-- The IEEE-754 double of a parsed decimal literal `±I.F × 10^e`,
abstracted to `Rat`: overflow to ±inf and underflow to zero are modelled
exactly (they decide the sign comparisons the handlers make); strictly
between the thresholds the exact rational is kept — rounding there never
crosses zero. -/
def mkPyFloat (neg : Bool) (intDs fracDs : List Nat) (e : Int) : PyNum :=
  let num : Nat := digitsToVal intDs * 10 ^ fracDs.length + digitsToVal fracDs
  let den : Nat := 10 ^ fracDs.length
  let sNum : Nat := if 0 ≤ e then num * 10 ^ e.toNat else num
  let sDen : Nat := if 0 ≤ e then den else den * 10 ^ (-e).toNat
  if hugeNum * sDen ≤ sNum then .inf neg
  else if sNum * tinyScale ≤ sDen then .finite 0
  else .finite (if neg then mkRat (-(sNum : Int)) sDen else mkRat sNum sDen)

/-- Python `float()` on a chat string: strip Unicode whitespace, an
optional sign, the case-insensitive words `inf`/`infinity`/`nan`, or a
decimal literal — Unicode digits from any `Nd` block, PEP-515
underscores, an optional fraction and an optional exponent. -/
def pyFloat (s : String) : Option PyNum :=
  let cs := stripEnds s.toList
  let signed : Bool × List Char :=
    match cs with
    | '-' :: rest => (true, rest)
    | '+' :: rest => (false, rest)
    | rest => (false, rest)
  let lower := signed.2.map Char.toLower
  if lower = "inf".toList ∨ lower = "infinity".toList then some (.inf signed.1)
  else if lower = "nan".toList then some .nan
  else
    match groupRun signed.2 with
    | (g1, '.' :: r2) =>
      let fr := groupRun r2
      match parseExpPart fr.2 with
      | none => none
      | some e =>
        if g1.isEmpty ∧ fr.1.isEmpty then none
        else
          match (if g1.isEmpty then some [] else validGroup g1),
              (if fr.1.isEmpty then some [] else validGroup fr.1) with
          | some intDs, some fracDs => some (mkPyFloat signed.1 intDs fracDs e)
          | _, _ => none
    | (g1, r1) =>
      match parseExpPart r1 with
      | none => none
      | some e =>
        match validGroup g1 with
        | some ds => some (mkPyFloat signed.1 ds [] e)
        | none => none

/-- Days of a month, as `datetime` validates them. -/
def monthLen (y : Int) (m : Nat) : Nat :=
  if m = 2 then (if (y % 4 = 0 ∧ y % 100 ≠ 0) ∨ y % 400 = 0 then 29 else 28)
  else if m = 4 ∨ m = 6 ∨ m = 9 ∨ m = 11 then 30 else 31

/-- Split on the character `-` (the effect of `text.split('-')` /
`splitOn "-"` for this single-character separator). -/
def splitDash (cs : List Char) : List (List Char) :=
  cs.foldr
    (fun c acc =>
      if c = '-' then [] :: acc
      else
        match acc with
        | g :: rest => (c :: g) :: rest
        | [] => [[c]])
    [[]]

/-- `datetime.strptime(text, '%Y-%m-%d')`: `%Y` is exactly four digits,
`%m` and `%d` one or two digits with nonzero value (the `strptime`
patterns exclude `00`), and the day must exist in the month; `\d` in
Python regexes matches any Unicode `Nd` digit. -/
def parseDateISO (s : String) : Option Date :=
  match splitDash s.toList with
  | [ys, ms, ds] =>
    if ys.all isPyDigit ∧ ys.length = 4 ∧
        ms.all isPyDigit ∧ 1 ≤ ms.length ∧ ms.length ≤ 2 ∧
        ds.all isPyDigit ∧ 1 ≤ ds.length ∧ ds.length ≤ 2 then
      let y : Int := digitsToVal (ys.filterMap pyDigitVal)
      let m := digitsToVal (ms.filterMap pyDigitVal)
      let d := digitsToVal (ds.filterMap pyDigitVal)
      if 1 ≤ m ∧ m ≤ 12 ∧ 1 ≤ d ∧ d ≤ monthLen y m then some ⟨y, m, d⟩ else none
    else none
  | _ => none

/-- aiogram's `CommandStart()` filter: the first whitespace-delimited
token of the text is the `/start` command — bare, with a payload after
whitespace, or with an `@mention` (the mention is checked against the
bot's own username, which is external configuration; the model takes it
as addressed to this bot). -/
def isStartCommand (text : String) : Bool :=
  match (text.toList.dropWhile pyIsSpace).takeWhile (fun c => !(pyIsSpace c)) with
  | '/' :: rest => rest.takeWhile (fun c => c ≠ '@') = "start".toList
  | _ => false

/-- The category list offered at the amount step of the transaction and
recurring flows (finance_bot.py:676-680, 1233-1237): the user's stored
categories for the drafted kind plus the built-in defaults (`data.get`
yields `None` for a missing kind, which selects no user rows and the
expense defaults). -/
def offeredCategories (db : Db) (uid : Nat) (trans_type : Option TransType) : List String :=
  (match trans_type with
   | some ty => db.get_user_categories uid ty
   | none => []) ++
  (if trans_type = some .income then DEFAULT_INCOME_CATEGORIES
   else DEFAULT_EXPENSE_CATEGORIES)

/-- One inbound text message of one user, dispatched exactly as aiogram
does: through the `@dp.message` handlers in registration order
(finance_bot.py:617-1412), first match wins; a handler without a state
filter fires in any state.  Returns the user's new session and the store.

Per-handler notes, in order:
* `cmd_start` answers only.
* `cancel_handler` (`⬅️ Назад` / `❌ Отмена` / `🔙 Назад`): `state.clear()`.
* `back_to_settings`: `state.clear()`.
* `transaction_type_handler` (`📈 Доход` / `📉 Расход`, no state filter):
  stores the kind and moves to the amount step.
* the transaction amount/category/description state handlers;
* read-only menu handlers (`💰 Баланс`, `📊 Статистика`, `📋 История`,
  `⚙️ Настройки`, `📋 Категории`) answer only;
* the category, limit, recurring and export flows.
`delete_category_type` and `add_recurring_type` repeat guards of handlers
registered earlier, so those branches are dead, as in the source.
A `KeyError` on a missing data key propagates out of a handler, leaving
state and store untouched. -/
def handleMessage (db : Db) (now : Date) (uid : Nat) (text : String) (s : Session) :
    Session × Db :=
  if isStartCommand text then (s, db)
  else if text = "⬅️ Назад" ∨ text = "❌ Отмена" ∨ text = "🔙 Назад" then
    (idleSession, db)
  else if text = "⬅️ Назад в настройки" then (idleSession, db)
  else if text = "📈 Доход" ∨ text = "📉 Расход" then
    (⟨.transaction_amount,
      { s.draft with transaction_type := (some
          (if text = "📈 Доход" then TransType.income else TransType.expense)) }⟩, db)
  else if s.st = .transaction_amount then
    match pyFloat (replaceCommaDot text) with
    | none => (s, db)
    | some amount =>
      if amount.leZero then (s, db)
      else
        if (offeredCategories db uid s.draft.transaction_type).isEmpty then (idleSession, db)
        else (⟨.transaction_category,
          { s.draft with transaction_amount := some amount }⟩, db)
  else if s.st = .transaction_category then
    (⟨.transaction_description, { s.draft with transaction_category := some text }⟩, db)
  else if s.st = .transaction_description then
    match s.draft.transaction_type, s.draft.transaction_amount, s.draft.transaction_category with
    | some ty, some (PyNum.finite q), some cat =>
      (idleSession,
       (db.add_transaction now uid ty q cat
         (if text = "Пропустить" then none else some text)).1)
    | some ty, some (PyNum.inf _), some cat =>
      -- SQLite stores the non-finite REAL, outside the Rat ledger values;
      -- projected to amount 0 (no property below reaches this branch)
      (idleSession,
       (db.add_transaction now uid ty 0 cat
         (if text = "Пропустить" then none else some text)).1)
    | some _, some PyNum.nan, some _ =>
      -- sqlite3 binds nan as NULL; the NOT NULL amount column rejects the
      -- insert, add_transaction returns False, the store is unchanged
      (idleSession, db)
    | _, _, _ => (s, db)
  else if text = "💰 Баланс" ∨ text = "📊 Статистика" ∨ text = "📋 История" ∨
      text = "⚙️ Настройки" ∨ text = "📋 Категории" then (s, db)
  else if text = "➕ Добавить категорию" then (⟨.category_type, s.draft⟩, db)
  else if s.st = .category_type ∧ (text = "📈 Доходы" ∨ text = "📉 Расходы") then
    (⟨.category_name,
      { s.draft with category_type := (some
          (if text = "📈 Доходы" then TransType.income else TransType.expense)) }⟩, db)
  else if s.st = .category_name then
    if (pyStrip text).length = 0 ∨ (pyStrip text).length > 30 then (s, db)
    else
      match s.draft.category_type with
      | some ty => (idleSession, (db.add_user_category uid (pyStrip text) ty).1)
      | none => (idleSession, db)
  else if text = "🗑️ Удалить категорию" then (⟨.category_type, s.draft⟩, db)
  else if s.st = .category_type ∧ (text = "📈 Доходы" ∨ text = "📉 Расходы") then
    let ty := if text = "📈 Доходы" then TransType.income else TransType.expense
    if (db.get_user_categories uid ty).isEmpty then (idleSession, db)
    else (⟨.delete_category, { s.draft with category_type := some ty }⟩, db)
  else if s.st = .delete_category then
    match s.draft.category_type with
    | some ty => (idleSession, (db.delete_user_category uid text ty).1)
    | none => (idleSession, db)
  else if text = "💸 Лимиты" then (s, db)
  else if text = "➕ Установить лимит" then (⟨.limit_category_type, s.draft⟩, db)
  else if s.st = .limit_category_type ∧
      (text = "📈 Лимит доходов" ∨ text = "📉 Лимит расходов") then
    let ty := if text = "📈 Лимит доходов" then TransType.income else TransType.expense
    if (db.get_user_categories uid ty ++
        (if ty = .income then DEFAULT_INCOME_CATEGORIES
         else DEFAULT_EXPENSE_CATEGORIES)).isEmpty then (idleSession, db)
    else (⟨.limit_category, { s.draft with limit_category_type := some ty }⟩, db)
  else if s.st = .limit_category then
    (⟨.limit_period, { s.draft with limit_category := some text }⟩, db)
  else if s.st = .limit_period then
    if text = "День" then
      (⟨.limit_amount, { s.draft with limit_period := some "day" }⟩, db)
    else if text = "Неделя" then
      (⟨.limit_amount, { s.draft with limit_period := some "week" }⟩, db)
    else if text = "Месяц" then
      (⟨.limit_amount, { s.draft with limit_period := some "month" }⟩, db)
    else (s, db)
  else if s.st = .limit_amount then
    match pyFloat (replaceCommaDot text) with
    | none => (idleSession, db)
    | some amount =>
      if amount.leZero then (idleSession, db)
      else
        match s.draft.limit_category_type, s.draft.limit_category, s.draft.limit_period with
        | some ty, some cat, some per =>
          match amount with
          | .finite q => (idleSession, (db.add_budget_limit uid cat q ty per).1)
          | .inf _ => (idleSession, (db.add_budget_limit uid cat 0 ty per).1)
          | .nan => (idleSession, db)
        | _, _, _ => (idleSession, db)
  else if text = "🔁 Регулярные" then (s, db)
  else if text = "➕ Добавить регулярную" then (⟨.recurring_type, s.draft⟩, db)
  else if s.st = .recurring_type ∧ (text = "📈 Доход" ∨ text = "📉 Расход") then
    (⟨.recurring_amount,
      { s.draft with recurring_type := (some
          (if text = "📈 Доход" then TransType.income else TransType.expense)) }⟩, db)
  else if s.st = .recurring_amount then
    match pyFloat (replaceCommaDot text) with
    | none => (s, db)
    | some amount =>
      if amount.leZero then (s, db)
      else
        if (offeredCategories db uid s.draft.recurring_type).isEmpty then (idleSession, db)
        else (⟨.recurring_category,
          { s.draft with recurring_amount := some amount }⟩, db)
  else if s.st = .recurring_category then
    (⟨.recurring_description, { s.draft with recurring_category := some text }⟩, db)
  else if s.st = .recurring_description then
    (⟨.recurring_frequency,
      { s.draft with recurring_description := (some
          (if text = "Пропустить" then none else some text)) }⟩, db)
  else if s.st = .recurring_frequency then
    if text = "Ежедневно" ∨ text = "Еженедельно" ∨ text = "Ежемесячно" then
      match s.draft.recurring_type, s.draft.recurring_amount,
          s.draft.recurring_category, s.draft.recurring_description with
      | some ty, some (PyNum.finite q), some cat, some desc =>
        (idleSession,
         (db.add_recurring_transaction now uid ty q cat
           (if text = "Ежедневно" then "daily"
            else if text = "Еженедельно" then "weekly" else "monthly") desc).1)
      | some ty, some (PyNum.inf _), some cat, some desc =>
        -- non-finite REAL, outside the Rat values; projected to amount 0
        (idleSession,
         (db.add_recurring_transaction now uid ty 0 cat
           (if text = "Ежедневно" then "daily"
            else if text = "Еженедельно" then "weekly" else "monthly") desc).1)
      | some _, some PyNum.nan, some _, some _ =>
        -- nan binds as NULL, the NOT NULL amount column rejects the insert
        (idleSession, db)
      | _, _, _, _ => (s, db)
    else (s, db)
  else if text = "📤 Экспорт" then (⟨.export_start_date, s.draft⟩, db)
  else if s.st = .export_start_date then
    match parseDateISO text with
    | none => (s, db)
    | some d => (⟨.export_end_date, { s.draft with export_start_date := some d }⟩, db)
  else if s.st = .export_end_date then
    match parseDateISO text with
    | none => (s, db)
    | some d => (⟨.export_format, { s.draft with export_end_date := some d }⟩, db)
  else if s.st = .export_format ∧ (text = "CSV" ∨ text = "TXT") then
    (idleSession, db)
  else (s, db)

/-- The C2 counterexample session: the transaction flow at the category
step with an expense of 100 drafted. -/
def c2CatS : Session :=
  ⟨.transaction_category,
    { transaction_type := some .expense, transaction_amount := some (.finite 100) }⟩

/-- The C2 amended-claim witness session: the transaction flow at the
amount step with the kind drafted. -/
def c2AmtS : Session :=
  ⟨.transaction_amount, { transaction_type := some .expense }⟩

end FinBot

namespace FinBot.Main

/-! The older bot of `main.py` (both copies in that file define the same
`Database`): a single `transactions` table whose `type` column is an
unchecked `TEXT`. -/

/-- A row of `main.py`'s `transactions` table. -/
structure Txn where
  user_id : Nat
  ttype : String
  amount : Rat
  category : String
  date : Date
deriving DecidableEq, Repr

/-- `main.py`'s store. -/
structure Db where
  transactions : List Txn
deriving DecidableEq, Repr

/-- `main.py` `Database.add_transaction` (main.py:44-54): one `INSERT` with
today's date; `True` on success. -/
def Db.add_transaction (db : Db) (now : Date) (user_id : Nat) (transaction_type : String)
    (amount : Rat) (category : String) : Db × Bool :=
  ({ transactions :=
      db.transactions ++ [⟨user_id, transaction_type, amount, category, now⟩] },
   true)

/-- `main.py` `Database.get_balance` (main.py:56-63): two `SELECT SUM(amount)`
queries, one per type, over all the user's rows with no date filter;
`fetchone()[0] or 0` turns the `NULL` sum of an empty selection into 0,
matching `List.sum [] = 0`. -/
def Db.get_balance (db : Db) (user_id : Nat) : Rat × Rat :=
  (((db.transactions.filter
      (fun t => t.user_id = user_id ∧ t.ttype = "income")).map (·.amount)).sum,
   ((db.transactions.filter
      (fun t => t.user_id = user_id ∧ t.ttype = "expense")).map (·.amount)).sum)

end FinBot.Main

namespace FinBot

/-- C1: with no date filter, inserting a valid transaction and then listing
the user's transactions (within the `LIMIT`) returns the inserted record:
same kind, amount, category and description, and the insertion day as date. -/
theorem C1_add_then_get_roundtrip (db : Db) (now : Date) (uid : Nat) (ty : TransType)
    (a : Rat) (cat : String) (desc : Option String) (limit : Nat)
    (hpos : 0 < a)
    (hlim : (((db.add_transaction now uid ty a cat desc).1.transactions.filter
        (fun t => t.user_id = uid ∧ inDateRange none none t.date)).length ≤ limit)) :
    (ty, a, cat, now, desc) ∈
      (db.add_transaction now uid ty a cat desc).1.get_transactions uid none none limit := by
  classical
  set t0 : Txn := ⟨uid, ty, a, cat, now, desc⟩ with ht0
  have hmem : t0 ∈ (db.add_transaction now uid ty a cat desc).1.transactions.filter
      (fun t => t.user_id = uid ∧ inDateRange none none t.date) := by
    simp [Db.add_transaction, List.mem_filter, ht0, inDateRange]
  unfold Db.get_transactions
  have hlen : ((((db.add_transaction now uid ty a cat desc).1.transactions.filter
      (fun t => t.user_id = uid ∧ inDateRange none none t.date)).insertionSort dateDesc).map
      (fun t => (t.ttype, t.amount, t.category, t.date, t.description))).length ≤ limit := by
    simpa [List.length_map, List.length_insertionSort] using hlim
  rw [List.take_of_length_le hlen]
  refine List.mem_map.2 ⟨t0, ?_, by simp [ht0]⟩
  exact (List.mem_insertionSort dateDesc).2 hmem

/-- Witness for C1 at a concrete input: user 1 records an expense of 250 in
category "Еда" with a description, on 2024-03-10, into an empty store. -/
theorem C1_add_then_get_roundtrip_witness :
    ((0 : Rat) < 250 ∧
      ((emptyDb.add_transaction ⟨2024, 3, 10⟩ 1 .expense 250 "Еда" (some "обед")).1.transactions.filter
        (fun t => t.user_id = 1 ∧ inDateRange none none t.date)).length ≤ 100) ∧
    (TransType.expense, (250 : Rat), "Еда", (⟨2024, 3, 10⟩ : Date), some "обед") ∈
      (emptyDb.add_transaction ⟨2024, 3, 10⟩ 1 .expense 250 "Еда" (some "обед")).1.get_transactions
        1 none none 100 :=
  ⟨⟨by norm_num, by decide⟩,
    C1_add_then_get_roundtrip emptyDb ⟨2024, 3, 10⟩ 1 .expense 250 "Еда" (some "обед") 100
      (by norm_num) (by decide)⟩

/-- C7: when no row with the key exists yet, adding the same (user, name,
kind) category twice succeeds the first time, fails (returns `false`, does
not raise) the second time, leaves the store unchanged by the second call,
and leaves exactly one row for that key. -/
theorem C7_duplicate_category_rejected (db : Db) (uid : Nat) (name : String) (ty : TransType)
    (h : db.user_categories.any (ucKeyMatch uid name ty) = false) :
    (db.add_user_category uid name ty).2 = true ∧
    ((db.add_user_category uid name ty).1.add_user_category uid name ty).2 = false ∧
    ((db.add_user_category uid name ty).1.add_user_category uid name ty).1 =
      (db.add_user_category uid name ty).1 ∧
    ((db.add_user_category uid name ty).1.add_user_category
        uid name ty).1.user_categories.filter (ucKeyMatch uid name ty) =
      [⟨uid, name, ty⟩] := by
  have hrow : ucKeyMatch uid name ty ⟨uid, name, ty⟩ = true := by
    simp [ucKeyMatch]
  have hnil : db.user_categories.filter (ucKeyMatch uid name ty) = [] := by
    rw [List.filter_eq_nil_iff]
    intro a ha hpa
    have := List.any_of_mem ha hpa
    rw [h] at this
    exact Bool.false_ne_true this
  have hany2 : (db.user_categories ++ [(⟨uid, name, ty⟩ : UserCategory)]).any
      (ucKeyMatch uid name ty) = true := by
    simp [List.any_append, hrow]
  refine ⟨by simp [Db.add_user_category, h], ?_, ?_, ?_⟩ <;>
    simp [Db.add_user_category, h, hany2, List.filter_append, hnil, hrow]

/-- Witness for C7: user 1 registers the income category "Salary" twice in
an empty store. -/
theorem C7_duplicate_category_rejected_witness :
    emptyDb.user_categories.any (ucKeyMatch 1 "Salary" .income) = false ∧
    ((emptyDb.add_user_category 1 "Salary" .income).2 = true ∧
     ((emptyDb.add_user_category 1 "Salary" .income).1.add_user_category 1 "Salary" .income).2 = false ∧
     ((emptyDb.add_user_category 1 "Salary" .income).1.add_user_category 1 "Salary" .income).1 =
       (emptyDb.add_user_category 1 "Salary" .income).1 ∧
     ((emptyDb.add_user_category 1 "Salary" .income).1.add_user_category
         1 "Salary" .income).1.user_categories.filter (ucKeyMatch 1 "Salary" .income) =
       [⟨1, "Salary", .income⟩]) :=
  ⟨rfl, C7_duplicate_category_rejected emptyDb 1 "Salary" .income rfl⟩

/-- C8: starting from a store with no rows for the user, inserting
income = 100 and expense = 40 (on any dates, in any categories) makes
`get_balance` return (100, 40), and the caller's net 100 − 40 is 60. -/
theorem C8_get_balance_roundtrip (db : Main.Db) (uid : Nat) (c1 c2 : String) (d1 d2 : Date)
    (h : db.transactions.filter (fun t => t.user_id = uid) = []) :
    ((db.add_transaction d1 uid "income" 100 c1).1.add_transaction
        d2 uid "expense" 40 c2).1.get_balance uid = (100, 40) ∧
    (((db.add_transaction d1 uid "income" 100 c1).1.add_transaction
        d2 uid "expense" 40 c2).1.get_balance uid).1 -
      (((db.add_transaction d1 uid "income" 100 c1).1.add_transaction
        d2 uid "expense" 40 c2).1.get_balance uid).2 = 60 := by
  have huid : ∀ t ∈ db.transactions, ¬(t.user_id = uid) := by
    intro t ht hu
    have := List.filter_eq_nil_iff.1 h t ht
    simp [hu] at this
  have key : ∀ s : String, db.transactions.filter
      (fun t => decide (t.user_id = uid) && decide (t.ttype = s)) = [] := by
    intro s
    rw [List.filter_eq_nil_iff]
    intro t ht hp
    simp at hp
    exact huid t ht hp.1
  constructor
  · simp [Main.Db.add_transaction, Main.Db.get_balance, List.filter_append, key]
  · simp [Main.Db.add_transaction, Main.Db.get_balance, List.filter_append, key]
    norm_num

/-- Witness for C8: the scenario run from the empty store. -/
theorem C8_get_balance_roundtrip_witness :
    (Main.Db.mk []).transactions.filter (fun t => t.user_id = 7) = [] ∧
    ((((Main.Db.mk []).add_transaction ⟨2024, 1, 2⟩ 7 "income" 100 "Зарплата").1.add_transaction
        ⟨2024, 2, 3⟩ 7 "expense" 40 "Еда").1.get_balance 7 = (100, 40) ∧
     ((((Main.Db.mk []).add_transaction ⟨2024, 1, 2⟩ 7 "income" 100 "Зарплата").1.add_transaction
        ⟨2024, 2, 3⟩ 7 "expense" 40 "Еда").1.get_balance 7).1 -
       ((((Main.Db.mk []).add_transaction ⟨2024, 1, 2⟩ 7 "income" 100 "Зарплата").1.add_transaction
        ⟨2024, 2, 3⟩ 7 "expense" 40 "Еда").1.get_balance 7).2 = 60) :=
  ⟨rfl, C8_get_balance_roundtrip (Main.Db.mk []) 7 "Зарплата" "Еда" ⟨2024, 1, 2⟩ ⟨2024, 2, 3⟩ rfl⟩

/-- C10: an unknown `period` makes the date filter of
`get_category_spending` degrade to always-true, so the sum runs over all
matching (user, category, kind) rows regardless of date; and for any
`period`, an empty selection yields 0, never null. -/
theorem C10_category_spending_fallback (db : Db) (now : Date) (uid : Nat) (cat : String)
    (ty : TransType) :
    (∀ period, period ≠ "day" → period ≠ "week" → period ≠ "month" →
      db.get_category_spending now uid cat ty period =
        ((db.transactions.filter
          (fun t => t.user_id = uid ∧ t.category = cat ∧ t.ttype = ty)).map (·.amount)).sum) ∧
    (∀ period,
      db.transactions.filter
        (fun t => t.user_id = uid ∧ t.category = cat ∧ t.ttype = ty ∧
          spendingDateCond now period t.date) = [] →
      db.get_category_spending now uid cat ty period = 0) := by
  constructor
  · intro period hd hw hm
    simp [Db.get_category_spending, spendingDateCond, hd, hw, hm]
  · intro period hnil
    unfold Db.get_category_spending
    rw [hnil]
    rfl

/-- Witness for C10: the unknown period "year" sums the January row even in
March, while the in-range period "month" selects nothing and returns 0. -/
theorem C10_category_spending_fallback_witness :
    c10Db.get_category_spending ⟨2024, 3, 10⟩ 1 "Еда" .expense "year" =
      ((c10Db.transactions.filter
        (fun t => t.user_id = 1 ∧ t.category = "Еда" ∧ t.ttype = .expense)).map (·.amount)).sum ∧
    c10Db.get_category_spending ⟨2024, 3, 10⟩ 1 "Еда" .expense "month" = 0 :=
  ⟨(C10_category_spending_fallback c10Db ⟨2024, 3, 10⟩ 1 "Еда" .expense).1 "year"
      (by decide) (by decide) (by decide),
   (C10_category_spending_fallback c10Db ⟨2024, 3, 10⟩ 1 "Еда" .expense).2 "month"
      (by decide)⟩

/-- C3: a migration whose name is already recorded is skipped (body not
run, nothing changed); and running the manager twice in sequence on a fresh
store succeeds, is a no-op the second time, executes every body exactly
once overall, and leaves exactly one `_migrations` row per declared
migration. -/
theorem C3_migrations_run_once :
    (∀ (s : MigState) (m : String × (Schema → Except String Schema)),
      m.1 ∈ s.applied → runOneMigration s m = .ok s) ∧
    (∀ s1, run_migrations initialMigState = .ok s1 →
      run_migrations s1 = .ok s1 ∧
      s1.applied = migrationNames ∧
      s1.log = migrationNames ∧
      ∀ n ∈ migrationNames, s1.applied.count n = 1) := by
  constructor
  · intro s m hm
    simp [runOneMigration, hm]
  · intro s1 h1
    have hrun : run_migrations initialMigState = .ok migratedState := by rfl
    rw [hrun] at h1
    injection h1 with h1
    subst h1
    refine ⟨by rfl, by rfl, by rfl, ?_⟩
    intro n hn
    fin_cases hn <;> rfl

/-- Witness for C3: the initial-schema migration is skipped once recorded,
and the concrete fresh-store run reaches `migratedState` with one row per
migration. -/
theorem C3_migrations_run_once_witness :
    runOneMigration ⟨emptySchema, ["_migration_initial_schema"], []⟩
        ("_migration_initial_schema", migration_initial_schema) =
      .ok ⟨emptySchema, ["_migration_initial_schema"], []⟩ ∧
    (run_migrations migratedState = .ok migratedState ∧
     migratedState.applied = migrationNames ∧
     migratedState.log = migrationNames ∧
     ∀ n ∈ migrationNames, migratedState.applied.count n = 1) :=
  ⟨(C3_migrations_run_once).1 ⟨emptySchema, ["_migration_initial_schema"], []⟩
      ("_migration_initial_schema", migration_initial_schema) (by decide),
   (C3_migrations_run_once).2 migratedState (by rfl)⟩

/-- C4: an active daily template with no `last_processed` yields, in one
cycle, exactly one new ledger transaction carrying the template's
kind/amount/category/description and today's date, and its
`last_processed` becomes today; a second cycle the same day changes
nothing. -/
theorem C4_daily_template_once_per_day (db : Db) (t : RecurringTxn) (now : Date)
    (hr : db.recurring = [t]) (hact : t.is_active = true)
    (hf : t.frequency = "daily") (hl : t.last_processed = none) :
    (processRecurringCycle db now).transactions = db.transactions ++ [templateTxn t now] ∧
    (processRecurringCycle db now).recurring = [{ t with last_processed := some now }] ∧
    processRecurringCycle (processRecurringCycle db now) now = processRecurringCycle db now := by
  have h1 : processRecurringCycle db now =
      { db with transactions := db.transactions ++ [templateTxn t now],
                recurring := [{ t with last_processed := some now }] } := by
    unfold processRecurringCycle
    simp only [Db.get_recurring_all]
    simp [hr, hact, hf, hl, cadenceDue, Db.add_transaction,
      Db.update_recurring_last_processed, templateTxn]
  refine ⟨by rw [h1], by rw [h1], ?_⟩
  rw [h1]
  unfold processRecurringCycle
  simp only [Db.get_recurring_all]
  simp [hact, hf, cadenceDue]

/-- Witness for C4 at a concrete store: one active daily rent template of
user 2, never processed, materialized on 2024-05-02. -/
theorem C4_daily_template_once_per_day_witness :
    (c4Db.recurring = [c4T] ∧ c4T.is_active = true ∧
      c4T.frequency = "daily" ∧ c4T.last_processed = none) ∧
    ((processRecurringCycle c4Db ⟨2024, 5, 2⟩).transactions =
        c4Db.transactions ++ [templateTxn c4T ⟨2024, 5, 2⟩] ∧
      (processRecurringCycle c4Db ⟨2024, 5, 2⟩).recurring =
        [{ c4T with last_processed := some ⟨2024, 5, 2⟩ }] ∧
      processRecurringCycle (processRecurringCycle c4Db ⟨2024, 5, 2⟩) ⟨2024, 5, 2⟩ =
        processRecurringCycle c4Db ⟨2024, 5, 2⟩) :=
  ⟨⟨rfl, rfl, rfl, rfl⟩,
    C4_daily_template_once_per_day c4Db c4T ⟨2024, 5, 2⟩ rfl rfl rfl rfl⟩

/-- C5: an active template with a recorded `last_processed` is materialized
in a cycle iff its cadence test passes: monthly iff the month or the year
of `now` is strictly greater than that of `last_processed`, weekly iff at
least 7 days have elapsed. -/
theorem C5_weekly_monthly_cadence (db : Db) (t : RecurringTxn) (now d : Date)
    (hr : db.recurring = [t]) (hact : t.is_active = true)
    (hl : t.last_processed = some d) :
    (t.frequency = "monthly" →
      ((processRecurringCycle db now).transactions ≠ db.transactions ↔
        (d.month < now.month ∨ d.year < now.year))) ∧
    (t.frequency = "weekly" →
      ((processRecurringCycle db now).transactions ≠ db.transactions ↔
        7 ≤ now.toDays - d.toDays)) := by
  have hcycle : processRecurringCycle db now =
      if cadenceDue t.frequency t.last_processed now then
        { db with transactions := db.transactions ++ [templateTxn t now],
                  recurring := [{ t with last_processed := some now }] }
      else db := by
    unfold processRecurringCycle
    simp only [Db.get_recurring_all]
    by_cases hdue : cadenceDue t.frequency t.last_processed now <;>
      simp [hr, hact, hdue, Db.add_transaction, Db.update_recurring_last_processed, templateTxn]
  constructor
  · intro hm
    rw [hcycle, hl, hm]
    by_cases hcond : d.month < now.month ∨ d.year < now.year <;>
      simp [cadenceDue, hcond]
  · intro hw
    rw [hcycle, hl, hw]
    by_cases hcond : 7 ≤ now.toDays - d.toDays <;>
      simp [cadenceDue, hcond]

/-- Witness for C5: a monthly salary template of user 3 last processed on
2024-04-30 is due again on 2024-05-02 (month advanced), so the cycle
inserts for it. -/
theorem C5_weekly_monthly_cadence_witness :
    (c5Db.recurring = [c5T] ∧ c5T.is_active = true ∧
      c5T.last_processed = some ⟨2024, 4, 30⟩) ∧
    ((c5T.frequency = "monthly" →
      ((processRecurringCycle c5Db ⟨2024, 5, 2⟩).transactions ≠ c5Db.transactions ↔
        ((⟨2024, 4, 30⟩ : Date).month < (⟨2024, 5, 2⟩ : Date).month ∨
          (⟨2024, 4, 30⟩ : Date).year < (⟨2024, 5, 2⟩ : Date).year))) ∧
     (c5T.frequency = "weekly" →
      ((processRecurringCycle c5Db ⟨2024, 5, 2⟩).transactions ≠ c5Db.transactions ↔
        7 ≤ (⟨2024, 5, 2⟩ : Date).toDays - (⟨2024, 4, 30⟩ : Date).toDays))) :=
  ⟨⟨rfl, rfl, rfl⟩,
    C5_weekly_monthly_cadence c5Db c5T ⟨2024, 5, 2⟩ ⟨2024, 4, 30⟩ rfl rfl rfl⟩

/-- C2 as stated is false at the category step: the handler stores any
text as the category and advances, without checking the offered set.
Concretely, "Абракадабра" is not among the categories offered to user 1
(no stored categories, expense defaults), yet at the category step it
changes the session: the flow advances to the description step and the
draft's category becomes "Абракадабра". -/
theorem C2_counterexample_category_not_checked :
    "Абракадабра" ∉ offeredCategories emptyDb 1 (some .expense) ∧
    handleMessage emptyDb ⟨2024, 5, 2⟩ 1 "Абракадабра" c2CatS ≠ (c2CatS, emptyDb) ∧
    (handleMessage emptyDb ⟨2024, 5, 2⟩ 1 "Абракадабра" c2CatS).1.st =
      .transaction_description ∧
    (handleMessage emptyDb ⟨2024, 5, 2⟩ 1 "Абракадабра" c2CatS).1.draft.transaction_category =
      some "Абракадабра" :=
  ⟨by decide, by decide, by decide, by decide⟩

/-- C2 amended: at the amount step, any text that is not handled by an
earlier stateless handler (a `/start` command, the cancel/back texts, the
two kind buttons) whose `float()` either fails or yields a value `<= 0`
re-prompts the same step with the session and store unchanged; at the
category step such a text is accepted as the category — the flow advances
to the description step storing it, whether or not it is in the offered
set. -/
theorem C2_amount_reprompt_category_accepts (db : Db) (now : Date) (uid : Nat)
    (text : String) (s : Session)
    (h0 : isStartCommand text = false) (h1 : text ≠ "⬅️ Назад") (h2 : text ≠ "❌ Отмена")
    (h3 : text ≠ "🔙 Назад") (h4 : text ≠ "⬅️ Назад в настройки")
    (h5 : text ≠ "📈 Доход") (h6 : text ≠ "📉 Расход") :
    (s.st = .transaction_amount →
      (∀ v, pyFloat (replaceCommaDot text) = some v → v.leZero = true) →
      handleMessage db now uid text s = (s, db)) ∧
    (s.st = .transaction_category →
      handleMessage db now uid text s =
        (⟨.transaction_description, { s.draft with transaction_category := some text }⟩, db)) := by
  constructor
  · intro hst hbad
    cases hp : pyFloat (replaceCommaDot text) with
    | none => simp [handleMessage, h0, h1, h2, h3, h4, h5, h6, hst, hp]
    | some v =>
      have hv : v.leZero = true := hbad v hp
      simp [handleMessage, h0, h1, h2, h3, h4, h5, h6, hst, hp, hv]
  · intro hst
    simp [handleMessage, h0, h1, h2, h3, h4, h5, h6, hst]

/-- Witness for the amended C2: "abc" at the amount step changes nothing;
"Абракадабра" at the category step is stored and the flow advances. -/
theorem C2_amount_reprompt_category_accepts_witness :
    handleMessage emptyDb ⟨2024, 5, 2⟩ 1 "abc" c2AmtS = (c2AmtS, emptyDb) ∧
    handleMessage emptyDb ⟨2024, 5, 2⟩ 1 "Абракадабра" c2CatS =
      (⟨.transaction_description,
        { c2CatS.draft with transaction_category := some "Абракадабра" }⟩, emptyDb) :=
  ⟨(C2_amount_reprompt_category_accepts emptyDb ⟨2024, 5, 2⟩ 1 "abc" c2AmtS
      (by decide) (by decide) (by decide) (by decide) (by decide) (by decide) (by decide)).1
    rfl
    (fun v h => by
      rw [show pyFloat (replaceCommaDot "abc") = none from rfl] at h
      exact Option.noConfusion h),
   (C2_amount_reprompt_category_accepts emptyDb ⟨2024, 5, 2⟩ 1 "Абракадабра" c2CatS
      (by decide) (by decide) (by decide) (by decide) (by decide) (by decide) (by decide)).2
    rfl⟩

/-- C9: the cancel button "❌ Отмена" is recognized in every FSM state of
every flow (its stateless handler is registered before every state
handler): it clears the draft entirely and returns the conversation to
idle, leaving the store untouched. -/
theorem C9_cancel_everywhere (db : Db) (now : Date) (uid : Nat) (s : Session) :
    handleMessage db now uid "❌ Отмена" s = (⟨.idle, {}⟩, db) := by
  have h0 : isStartCommand "❌ Отмена" = false := by decide
  simp [handleMessage, h0, idleSession]

end FinBot
